import Mathlib

/-!
Verification of the hunt mini-game's combat simulation (src/App.jsx).

Shallow embedding notes:
* JavaScript numbers are modelled as exact rationals; every constant in the
  embedded code is a small decimal, exact in binary-free rational arithmetic.
* React `useState` semantics are modelled explicitly: reads inside one
  `useFrame` / effect body see the values captured at the last render
  (stale reads), queued writes are flushed between ticks, and direct
  mutations of shared `spearData` objects are synchronous.
* The collision test `Math.sqrt(d2) < 3.0` is embedded as `d2 < 9`,
  which is equivalent since both sides are nonnegative.
-/

namespace Hunt

structure Vec3 where
  x : ℚ
  y : ℚ
  z : ℚ
  deriving DecidableEq

/-- Archetype record, from `ANIMAL_TYPES` (src/App.jsx lines 24-58).
`size` and `color` are rendering-only and omitted. -/
structure AnimalType where
  name : String
  baseSpeed : ℚ
  speedIncrease : ℚ
  health : ℕ
  damage : ℕ
  score : ℕ
  spawnWeight : ℚ
  deriving DecidableEq

def ELEPHANT : AnimalType :=
  { name := "elephant", baseSpeed := 4/10, speedIncrease := 6/10, health := 3,
    damage := 50, score := 100, spawnWeight := 1/2 }

def CHEETAH : AnimalType :=
  { name := "cheetah", baseSpeed := 1, speedIncrease := 1/2, health := 2,
    damage := 25, score := 75, spawnWeight := 1/8 }

def ANTELOPE : AnimalType :=
  { name := "antelope", baseSpeed := 6/10, speedIncrease := 0, health := 1,
    damage := 10, score := 50, spawnWeight := 1/4 }

/-- `Object.values(ANIMAL_TYPES)` in insertion order. -/
def ANIMAL_TYPES : List AnimalType := [ELEPHANT, CHEETAH, ANTELOPE]

/-! ## Projectile physics: the `ThrownSpear` component (src/App.jsx 470-549) -/

/-- Component state of one thrown spear: `position`, `velocity`, `isActive`,
`hasTriggeredMiss`, `hasHitAnimal`, plus the registry id from `spearData`. -/
structure SpearState where
  id : ℕ
  pos : Vec3
  vel : Vec3
  isActive : Bool
  hasTriggeredMiss : Bool
  hasHitAnimal : Bool
  deriving DecidableEq

def GRAVITY : ℚ := 98/10

/-- Backboard collision test (line 506): `z <= -29.9 && -5 <= x <= 5 && -5 <= y <= 3`. -/
def backstopHit (p : Vec3) : Prop :=
  p.z ≤ -299/10 ∧ -5 ≤ p.x ∧ p.x ≤ 5 ∧ -5 ≤ p.y ∧ p.y ≤ 3

instance (p : Vec3) : Decidable (backstopHit p) := by
  unfold backstopHit; exact inferInstance

/-- Ground contact test (line 518): `y <= -3.25`. -/
def groundHit (p : Vec3) : Prop := p.y ≤ -13/4

instance (p : Vec3) : Decidable (groundHit p) := by
  unfold groundHit; exact inferInstance

/-- Out-of-bounds test (line 527): `z < -35 || x < -15 || x > 15`. -/
def outOfBounds (p : Vec3) : Prop := p.z < -35 ∨ p.x < -15 ∨ p.x > 15

instance (p : Vec3) : Decidable (outOfBounds p) := by
  unfold outOfBounds; exact inferInstance

structure SpearTickResult where
  state : SpearState
  missEmitted : Bool
  deriving DecidableEq

/-- One `useFrame` step of a `ThrownSpear` (src/App.jsx 489-537): gravity on
`velocity.y`, position integration with the updated velocity, then the
else-if chain backstop / ground / out-of-bounds.  `missEmitted` records
whether `onMiss` was invoked this tick.  Note that the out-of-bounds branch
does not call `setIsActive(false)` in the source. -/
def spearTick (s : SpearState) (paused : Bool) (dt : ℚ) : SpearTickResult :=
  if s.isActive = false ∨ paused = true then ⟨s, false⟩
  else
    let nv : Vec3 := ⟨s.vel.x, s.vel.y - GRAVITY * dt, s.vel.z⟩
    let np : Vec3 := ⟨s.pos.x + nv.x * dt, s.pos.y + nv.y * dt, s.pos.z + nv.z * dt⟩
    let emit : Bool := !s.hasTriggeredMiss && !s.hasHitAnimal
    if backstopHit np then
      ⟨{ s with pos := ⟨np.x, np.y, -299/10⟩, vel := nv, isActive := false,
                hasTriggeredMiss := s.hasTriggeredMiss || emit }, emit⟩
    else if groundHit np then
      ⟨{ s with pos := ⟨np.x, -13/4, np.z⟩, vel := nv, isActive := false,
                hasTriggeredMiss := s.hasTriggeredMiss || emit }, emit⟩
    else if outOfBounds np then
      ⟨{ s with pos := np, vel := nv,
                hasTriggeredMiss := s.hasTriggeredMiss || emit }, emit⟩
    else
      ⟨{ s with pos := np, vel := nv }, false⟩

/-! ## Animal motor and collision resolver: the `Animal` component
(src/App.jsx 296-387) -/

/-- Component state of one animal, plus the registry id and archetype from
`animalData`. -/
structure AnimalState where
  id : ℕ
  type : AnimalType
  pos : Vec3
  health : ℤ
  isAlive : Bool
  stuckSpears : List ℕ
  isDying : Bool
  deriving DecidableEq

def distSq (a b : Vec3) : ℚ :=
  (a.x - b.x) ^ 2 + (a.y - b.y) ^ 2 + (a.z - b.z) ^ 2

/-- Accumulator for the `thrownSpears.forEach` collision loop.  All reads of
`health` and `stuckSpears` inside the loop see the render-time values (React
state is not updated until after the tick), which is why the per-hit fields
are computed from the animal's pre-tick state. -/
structure CollisionAcc where
  spears : List SpearState
  newStuck : List ℕ
  anyHit : Bool
  lethal : Bool
  immediateHits : List (ℕ × ℕ × ℕ)
  deferredHits : List (ℕ × ℕ × ℕ)
  hitMessages : ℕ
  deriving DecidableEq

/-- One iteration of the `forEach` body (src/App.jsx 326-381) for spear `s`.
Hit triples are `(score, spearId, animalId)`, exactly the arguments of each
`onHit` call; `deferredHits` are the calls scheduled with a 500 ms
`setTimeout`, `immediateHits` the synchronous call in the lethal branch. -/
def collideStep (a : AnimalState) (newPos : Vec3) (acc : CollisionAcc)
    (s : SpearState) : CollisionAcc :=
  if s.isActive = false ∨ s.id ∈ a.stuckSpears then
    { acc with spears := acc.spears ++ [s] }
  else if distSq newPos s.pos < 9 then
    { spears := acc.spears ++ [{ s with isActive := false, hasHitAnimal := true }],
      newStuck := acc.newStuck ++ [s.id],
      anyHit := true,
      lethal := acc.lethal || decide (a.health - 1 ≤ 0),
      immediateHits := acc.immediateHits ++
        (if a.health - 1 ≤ 0 then [(a.type.score, s.id, a.id)] else []),
      deferredHits := acc.deferredHits ++ [(a.type.score, s.id, a.id)],
      hitMessages := acc.hitMessages + 1 }
  else
    { acc with spears := acc.spears ++ [s] }

structure AnimalTickResult where
  animal : AnimalState
  spears : List SpearState
  immediateHits : List (ℕ × ℕ × ℕ)
  deferredHits : List (ℕ × ℕ × ℕ)
  arrivals : List (ℕ × ℕ)
  hitMessages : ℕ
  deriving DecidableEq

/-- One `useFrame` step of an `Animal` (src/App.jsx 304-385): health-scaled
speed, movement along z, the arrival-at-player early return at `z >= 8`
(which emits `onReachPlayer(damage, id)` and skips every collision check),
then the collision loop over all spears.  The post-tick state reflects the
flushed `setState` writes: every `setHealth` this tick wrote the same stale
`health - 1`, `setStuckSpears` used functional updates which compose, and
`setIsAlive(false)` / `setIsDying(true)` fire iff some hit was lethal. -/
def animalTick (a : AnimalState) (spears : List SpearState) (paused : Bool)
    (dt : ℚ) : AnimalTickResult :=
  if a.isAlive = false ∨ paused = true then ⟨a, spears, [], [], [], 0⟩
  else
    let hitsTaken : ℚ := (a.type.health : ℚ) - (a.health : ℚ)
    let speed : ℚ := a.type.baseSpeed + hitsTaken * a.type.speedIncrease
    let newPos : Vec3 := ⟨a.pos.x, a.pos.y, a.pos.z + speed * dt⟩
    if 8 ≤ newPos.z then
      ⟨{ a with isAlive := false }, spears, [], [], [(a.type.damage, a.id)], 0⟩
    else
      let acc := spears.foldl (collideStep a newPos) ⟨[], [], false, false, [], [], 0⟩
      ⟨{ a with pos := newPos,
                health := if acc.anyHit then a.health - 1 else a.health,
                stuckSpears := a.stuckSpears ++ acc.newStuck,
                isAlive := !acc.lethal,
                isDying := a.isDying || acc.lethal },
        acc.spears, acc.immediateHits, acc.deferredHits, [], acc.hitMessages⟩

/-! ## Spear lifetime traces

A frame of a spear's life: its own `useFrame` step plus, possibly, a
collision registered by some animal's `useFrame` in the same render frame.
The animal's `spear.setHasHitAnimal(true)` is a queued React state write, so
it becomes visible to the spear's own tick only from the next frame on,
regardless of the order the two callbacks ran in; the spear's `isActive`
component state is not touched by a hit (only the shared `spearData` field
is, and that is overwritten from component state on the next render). -/
structure FrameInput where
  paused : Bool
  hitByAnimal : Bool
  dt : ℚ

def applyHitFlag (s : SpearState) (hit : Bool) : SpearState :=
  if hit then { s with hasHitAnimal := true } else s

/-- The per-frame history of a spear: for each frame, the spear state at the
start of the frame and whether `onMiss` fired during it. -/
def spearFrames : SpearState → List FrameInput → List (SpearState × Bool)
  | _, [] => []
  | s, i :: rest =>
    let r := spearTick s i.paused i.dt
    (s, r.missEmitted) :: spearFrames (applyHitFlag r.state i.hitByAnimal) rest

def missCount (s : SpearState) (ins : List FrameInput) : ℕ :=
  ((spearFrames s ins).filter (fun p => p.2)).length

/-! ## Session coordinator: the `App` component (src/App.jsx 926-1209) -/

/-- `SPEAR_STATES` (src/App.jsx 16-21). -/
inductive SpearPhase where
  | Idle
  | Gripped
  | Throwing
  | Thrown
  deriving DecidableEq

/-- Registry entry created when a spear is fired (src/App.jsx 1143-1148). -/
structure SpearEntity where
  id : ℕ
  pos : Vec3
  vel : Vec3
  deriving DecidableEq

/-- Registry entry created by `spawnNewAnimal` (src/App.jsx 984-989). -/
structure AnimalEntity where
  id : ℕ
  type : AnimalType
  pos : Vec3
  deriving DecidableEq

/-- The `App` component's state: `useState` hooks plus the two `useRef` id
counters (src/App.jsx 928-941).  `pendingSpawns` models the outstanding
`setTimeout` callbacks whose body is a plain `spawnNewAnimal()` call
(scheduled at lines 953, 998 and 1020), in scheduling order: each entry
records the `isPaused` value that the scheduled closure instance captured
from its defining render — `spawnNewAnimal` is a per-render `const`, so the
timer body reads that captured value, not the pause flag at firing time. -/
structure AppState where
  spearState : SpearPhase
  headPosition : Option Vec3
  thrownSpears : List SpearEntity
  animals : List AnimalEntity
  score : ℕ
  hitMessage : String
  flashMessage : String
  isPaused : Bool
  lastFireTime : ℤ
  spearIdCounter : ℕ
  animalIdCounter : ℕ
  pendingSpawns : List Bool
  deriving DecidableEq

def initialAppState : AppState :=
  { spearState := .Idle, headPosition := none, thrownSpears := [], animals := [],
    score := 0, hitMessage := "", flashMessage := "", isPaused := false,
    lastFireTime := 0, spearIdCounter := 0, animalIdCounter := 0,
    pendingSpawns := [] }

def FIRE_COOLDOWN : ℤ := 1000

/-- Launch velocity (src/App.jsx 1133-1141): `powerRatio` is fixed at 1,
`baseVelocity = 1.5 + p*5`, `vz = -baseVelocity*(1 + p*5)`,
`vy = 0.8 + p*1.5`, `vx = 0`. -/
def fireVelocity : Vec3 :=
  let powerRatio : ℚ := 1
  let baseVelocity : ℚ := 3/2 + powerRatio * 5
  let zVelocity : ℚ := -baseVelocity * (1 + powerRatio * 5)
  let yVelocity : ℚ := 8/10 + powerRatio * 3/2
  ⟨0, yVelocity, zVelocity⟩

/-! ### Weighted archetype selection (src/App.jsx 964-976) -/

/-- The `for (const type of animalTypes)` walk: subtract each weight from the
running value and break at the first archetype where it is `<= 0`.
`none` means the loop finished without breaking. -/
def selectLoop (r : ℚ) : List AnimalType → Option AnimalType
  | [] => none
  | t :: rest =>
    if r - t.spawnWeight ≤ 0 then some t else selectLoop (r - t.spawnWeight) rest

/-- `animalTypes.reduce((sum, type) => sum + type.spawnWeight, 0)`. -/
def wsum (ts : List AnimalType) : ℚ :=
  ts.foldl (fun acc t => acc + t.spawnWeight) 0

/-- Full selection: the loop's result, defaulting to `animalTypes[0]`
(the initial value of `selectedType`, only relevant if the loop never
breaks). -/
def selectAnimalType (r : ℚ) : AnimalType :=
  (selectLoop r ANIMAL_TYPES).getD ELEPHANT

/-- JavaScript truthiness of the `deadAnimalId` argument: `if (deadAnimalId)`
is false for `null` (the default) and also for the number `0`. -/
def idTruthy : Option ℕ → Bool
  | none => false
  | some n => n != 0

/-- The plain-spawn path of `spawnNewAnimal` (src/App.jsx 959-992).  The
`isPaused` read by the guard at line 959 is the value that the invoked
closure instance captured from its defining render (`capturedPaused`), not
the pause flag of the current state; when it is false the path selects an
archetype by weighted random draw and appends a fresh animal at
`[rand - 0.5, -4, -25]`.  `r` and `rx` stand for the two `Math.random()`
samples in `[0, 1)`. -/
def spawnFresh (capturedPaused : Bool) (r rx : ℚ) (st : AppState) : AppState :=
  if capturedPaused = true then st
  else
    let selected := selectAnimalType (r * wsum ANIMAL_TYPES)
    { st with
        animals := st.animals ++
          [{ id := st.animalIdCounter, type := selected, pos := ⟨rx - 1/2, -4, -25⟩ }],
        animalIdCounter := st.animalIdCounter + 1 }

/-- `spawnNewAnimal(deadAnimalId)` (src/App.jsx 947-993), invoked on a
closure instance that captured `capturedPaused` from its defining render.
With a truthy dead id it removes that animal and schedules a deferred
`spawnNewAnimal()` (100 ms `setTimeout`) — the timer calls the same closure
instance, so the scheduled entry carries the same captured flag; with
`null` — or the falsy id `0` — it runs the plain-spawn path directly. -/
def spawnNewAnimal (deadAnimalId : Option ℕ) (capturedPaused : Bool) (r rx : ℚ)
    (st : AppState) : AppState :=
  if idTruthy deadAnimalId then
    { st with
        animals := st.animals.filter (fun a => a.id != deadAnimalId.getD 0),
        pendingSpawns := st.pendingSpawns ++ [capturedPaused] }
  else
    spawnFresh capturedPaused r rx st

/-- Firing the oldest scheduled `spawnNewAnimal()` timer.  The timer body is
a stale closure: its `isPaused` is the value recorded at scheduling time,
so the call runs with that captured flag while every other field (the
registries via `setAnimals` functional updates, the `useRef` counter) is
the current one. -/
def runPendingSpawn (r rx : ℚ) (st : AppState) : AppState :=
  match st.pendingSpawns with
  | [] => st
  | captured :: rest =>
    spawnNewAnimal none captured r rx { st with pendingSpawns := rest }

/-- `handleAnimalReachPlayer` (src/App.jsx 1006-1024): flash message chosen
from the arriving animal's archetype, removal of the animal from the
registry, and one deferred `spawnNewAnimal()` (1000 ms `setTimeout`).  The
handler runs synchronously inside the arrival tick, so the closure it
schedules captured that render's `isPaused` — the current state's value. -/
def handleAnimalReachPlayer (animalId : ℕ) (st : AppState) : AppState :=
  { st with
      flashMessage :=
        match st.animals.find? (fun a => a.id == animalId) with
        | some a => if a.type.name = "cheetah" then "EATEN!" else "TRAMPLED!"
        | none => st.flashMessage,
      animals := st.animals.filter (fun a => a.id != animalId),
      pendingSpawns := st.pendingSpawns ++ [st.isPaused] }

/-- `handleAnimalHit` (src/App.jsx 1027-1035): adds the score and removes the
hitting spear from the registry.  `if (spearId)` is JavaScript truthiness,
so the spear with id `0` is never removed here. -/
def handleAnimalHit (scorePoints spearId _animalId : ℕ) (st : AppState) : AppState :=
  { st with
      score := st.score + scorePoints,
      thrownSpears :=
        if spearId ≠ 0 then st.thrownSpears.filter (fun p => p.id != spearId)
        else st.thrownSpears }

/-- `handleHitMessage` (src/App.jsx 1038-1041); the 1.5 s clear timer is not
modelled. -/
def handleHitMessage (message : String) (st : AppState) : AppState :=
  { st with hitMessage := message }

/-- `handleSpearMiss` (src/App.jsx 1044-1053): shows a miss message and
removes the spear after a 1 s delay (the removal is modelled directly). -/
def handleSpearMiss (spearId : ℕ) (missMessage : String) (st : AppState) : AppState :=
  { st with
      hitMessage := missMessage,
      thrownSpears := st.thrownSpears.filter (fun p => p.id != spearId) }

/-- `handleTogglePause` (src/App.jsx 1056-1058). -/
def handleTogglePause (st : AppState) : AppState :=
  { st with isPaused := !st.isPaused }

/-- `handleRestart` (src/App.jsx 1061-1071).  Note the source resets the
score, entity sets, pause flag, messages, fire state and both id counters,
but does not touch `lastFireTime`. -/
def handleRestart (st : AppState) : AppState :=
  { st with
      score := 0,
      animals := [],
      thrownSpears := [],
      isPaused := false,
      hitMessage := "",
      flashMessage := "",
      spearState := .Idle,
      spearIdCounter := 0,
      animalIdCounter := 0 }

/-- The 500 ms `setTimeout` scheduled on firing (src/App.jsx 1156-1158). -/
def throwingReset (st : AppState) : AppState :=
  { st with spearState := .Gripped }

/-- The pose-driven effect body (src/App.jsx 1089-1162).  `ready` stands for
`poseLandmarks && isReady`; `aim?` is the 3D aim point computed from the
head landmark (`none` when no head is detected).  Crucially, the fire check
at line 1127 reads the render-time `spearState` and `headPosition` (React
state reads are stale within the effect run), so the grip transitions
queued earlier in the same run do not influence it, and the new spear is
placed at the previous run's head position.  Returns the updated state and
the created projectile, if any. -/
def poseUpdate (st : AppState) (ready : Bool) (aim? : Option Vec3)
    (handRaised : Bool) (now : ℤ) : AppState × Option SpearEntity :=
  if ready = false ∨ st.isPaused = true then (st, none)
  else
    let st1 : AppState :=
      match aim? with
      | some p =>
        { st with headPosition := some p,
                  spearState :=
                    if st.spearState = SpearPhase.Idle then SpearPhase.Gripped
                    else st.spearState }
      | none =>
        { st with headPosition := some ⟨0, -2, 5⟩,
                  spearState :=
                    if st.spearState = SpearPhase.Gripped then SpearPhase.Idle
                    else st.spearState }
    match st.headPosition with
    | some hp =>
      if handRaised = true ∧ st.spearState = SpearPhase.Gripped
          ∧ FIRE_COOLDOWN ≤ now - st.lastFireTime then
        let spear : SpearEntity := { id := st.spearIdCounter, pos := hp, vel := fireVelocity }
        ({ st1 with
             thrownSpears := st1.thrownSpears ++ [spear],
             spearState := SpearPhase.Throwing,
             lastFireTime := now,
             spearIdCounter := st.spearIdCounter + 1 }, some spear)
      else (st1, none)
    | none => (st1, none)

/-! ### Session steps and the id invariant -/

/-- One state-mutating operation of the `App` component. -/
inductive AppStep : AppState → AppState → Prop
  | pose (ready : Bool) (aim? : Option Vec3) (hr : Bool) (now : ℤ) (st : AppState) :
      AppStep st (poseUpdate st ready aim? hr now).1
  | spawn (deadId : Option ℕ) (captured : Bool) (r rx : ℚ) (st : AppState) :
      AppStep st (spawnNewAnimal deadId captured r rx st)
  | pending (r rx : ℚ) (st : AppState) :
      AppStep st (runPendingSpawn r rx st)
  | reach (animalId : ℕ) (st : AppState) :
      AppStep st (handleAnimalReachPlayer animalId st)
  | hit (sc sp an : ℕ) (st : AppState) :
      AppStep st (handleAnimalHit sc sp an st)
  | msg (m : String) (st : AppState) :
      AppStep st (handleHitMessage m st)
  | miss (sp : ℕ) (m : String) (st : AppState) :
      AppStep st (handleSpearMiss sp m st)
  | pauseToggle (st : AppState) :
      AppStep st (handleTogglePause st)
  | restart (st : AppState) :
      AppStep st (handleRestart st)
  | throwReset (st : AppState) :
      AppStep st (throwingReset st)

/-- Id discipline: every registered entity's id is below its counter, and
ids are pairwise distinct in each registry. -/
def idsOk (st : AppState) : Prop :=
  (∀ a ∈ st.animals, a.id < st.animalIdCounter) ∧
  st.animals.Pairwise (fun a b => a.id ≠ b.id) ∧
  (∀ p ∈ st.thrownSpears, p.id < st.spearIdCounter) ∧
  st.thrownSpears.Pairwise (fun a b => a.id ≠ b.id)

instance (st : AppState) : Decidable (idsOk st) := by
  unfold idsOk; exact inferInstance

/-! ## Concrete states used by the counterexamples and witnesses -/

/-- The spec's overkill scenario: an elephant down to `health = 1`. -/
def c1Animal : AnimalState :=
  { id := 1, type := ELEPHANT, pos := ⟨0, -4, 0⟩, health := 1, isAlive := true,
    stuckSpears := [], isDying := false }

def c1SpearA : SpearState :=
  { id := 10, pos := ⟨0, -4, 1⟩, vel := ⟨0, 0, 0⟩, isActive := true,
    hasTriggeredMiss := false, hasHitAnimal := false }

def c1SpearB : SpearState :=
  { id := 11, pos := ⟨0, -4, -1⟩, vel := ⟨0, 0, 0⟩, isActive := true,
    hasTriggeredMiss := false, hasHitAnimal := false }

/-- An antelope standing close to the ground next to `c2Spear`. -/
def c2Animal : AnimalState :=
  { id := 2, type := ANTELOPE, pos := ⟨0, -4, -1⟩, health := 1, isAlive := true,
    stuckSpears := [], isDying := false }

/-- A spear falling fast just above the floor, inside hit range of
`c2Animal`: its own tick this frame reaches the ground. -/
def c2Spear : SpearState :=
  { id := 3, pos := ⟨0, -16/5, 0⟩, vel := ⟨0, -10, 0⟩, isActive := true,
    hasTriggeredMiss := false, hasHitAnimal := false }

/-- A fresh spear used by the C2 witness. -/
def c2FreshSpear : SpearState :=
  { id := 7, pos := ⟨0, 0, 5⟩, vel := ⟨0, 2, -39⟩, isActive := true,
    hasTriggeredMiss := false, hasHitAnimal := false }

/-- A spear whose next integration step leaves the lateral bounds. -/
def c5Spear : SpearState :=
  { id := 4, pos := ⟨15, 0, 0⟩, vel := ⟨10, 10, 0⟩, isActive := true,
    hasTriggeredMiss := false, hasHitAnimal := false }

/-- An active spear in mid-flight, used by the C6 witness. -/
def c6Spear : SpearState :=
  { id := 6, pos := ⟨0, 0, 5⟩, vel := ⟨0, 2, -39⟩, isActive := true,
    hasTriggeredMiss := false, hasHitAnimal := false }

/-- An antelope one step short of the player boundary. -/
def c7Animal : AnimalState :=
  { id := 9, type := ANTELOPE, pos := ⟨0, -4, 795/100⟩, health := 1, isAlive := true,
    stuckSpears := [], isDying := false }

/-- Session with one animal, used to exercise the kill-respawn path. -/
def c4Init : AppState :=
  { initialAppState with
      animals := [{ id := 5, type := ELEPHANT, pos := ⟨0, -4, -10⟩ }],
      animalIdCounter := 6 }

/-- Session ready to fire: gripped, aim point known, cooldown long expired. -/
def c3St : AppState :=
  { initialAppState with
      spearState := .Gripped,
      headPosition := some ⟨0, 0, 5⟩,
      lastFireTime := 0 }

/-- A mid-game session state with a nonzero fire timestamp. -/
def c9State : AppState :=
  { initialAppState with
      lastFireTime := 5000, score := 300, spearState := .Gripped,
      animals := [{ id := 0, type := ANTELOPE, pos := ⟨0, -4, -20⟩ }],
      animalIdCounter := 1 }

/-- A session with empty registries, used by the C10 witness. -/
def c10St : AppState :=
  { initialAppState with animalIdCounter := 2, spearIdCounter := 3 }

/-! ## Helper lemmas on the spear tick -/

theorem spearTick_latch_true (s : SpearState) (p : Bool) (dt : ℚ)
    (h : s.hasTriggeredMiss = true) :
    (spearTick s p dt).missEmitted = false ∧
    (spearTick s p dt).state.hasTriggeredMiss = true := by
  simp only [spearTick]
  split_ifs <;> simp [h]

theorem spearTick_no_emit_latch (s : SpearState) (p : Bool) (dt : ℚ)
    (h : (spearTick s p dt).missEmitted = false) :
    (spearTick s p dt).state.hasTriggeredMiss = s.hasTriggeredMiss := by
  simp only [spearTick] at h ⊢
  split_ifs at h ⊢ <;> simp_all

theorem spearTick_emit_flags (s : SpearState) (p : Bool) (dt : ℚ)
    (h : (spearTick s p dt).missEmitted = true) :
    s.hasTriggeredMiss = false ∧ s.hasHitAnimal = false ∧
    (spearTick s p dt).state.hasTriggeredMiss = true := by
  simp only [spearTick] at h ⊢
  split_ifs at h ⊢ <;> simp_all

theorem applyHitFlag_latch (s : SpearState) (b : Bool) :
    (applyHitFlag s b).hasTriggeredMiss = s.hasTriggeredMiss := by
  unfold applyHitFlag
  split_ifs <;> rfl

theorem spearFrames_all_quiet (s : SpearState) (ins : List FrameInput)
    (h : s.hasTriggeredMiss = true) :
    ∀ p ∈ spearFrames s ins, p.2 = false := by
  induction ins generalizing s with
  | nil => simp [spearFrames]
  | cons i rest ih =>
    intro p hp
    simp only [spearFrames, List.mem_cons] at hp
    rcases hp with hp | hp
    · rw [hp]
      exact (spearTick_latch_true s i.paused i.dt h).1
    · exact ih (applyHitFlag (spearTick s i.paused i.dt).state i.hitByAnimal)
        (by rw [applyHitFlag_latch]; exact (spearTick_latch_true s i.paused i.dt h).2) p hp

theorem missCount_quiet (s : SpearState) (ins : List FrameInput)
    (h : s.hasTriggeredMiss = true) :
    missCount s ins = 0 := by
  induction ins generalizing s with
  | nil => simp [missCount, spearFrames]
  | cons i rest ih =>
    have hnext := ih (applyHitFlag (spearTick s i.paused i.dt).state i.hitByAnimal)
      (by rw [applyHitFlag_latch]; exact (spearTick_latch_true s i.paused i.dt h).2)
    unfold missCount at hnext ⊢
    simp only [spearFrames, List.filter, (spearTick_latch_true s i.paused i.dt h).1]
    exact hnext

/-! ## Claim C2 -/

/-- C2 counterexample: in one render frame the antelope `c2Animal` registers
a hit on `c2Spear` (so `hasHitAnimal` is true for the rest of the spear's
lifetime), while the spear's own physics tick — which still reads the
render-time `hasHitAnimal = false` — contacts the ground and emits a miss.
So a projectile that has hit an animal at some point in its lifetime can
still emit a miss, refuting the claim at this concrete input. -/
theorem c2_miss_exclusivity_counterexample :
    ((animalTick c2Animal [c2Spear] false (1/10)).spears.map
        (fun s => s.hasHitAnimal) = [true]) ∧
    missCount c2Spear [⟨false, true, 1/10⟩] = 1 ∧
    (applyHitFlag (spearTick c2Spear false (1/10)).state true).hasHitAnimal = true := by
  norm_num [animalTick, collideStep, distSq, spearTick, backstopHit, groundHit,
    outOfBounds, GRAVITY, missCount, spearFrames, applyHitFlag, c2Animal, c2Spear,
    ANTELOPE, List.foldl, List.filter]

/-- C2 (amended): over any lifetime trace, the miss event fires at most once
(the `missTriggered` latch), and never in a frame at whose start
`hasHitAnimal` is already true — that is, a hit registered in an earlier
frame always suppresses the miss; only a hit detected in the very same
frame as the terminal contact fails to suppress it. -/
theorem c2_miss_once_amended (s : SpearState) (ins : List FrameInput)
    (h : s.hasTriggeredMiss = false) :
    missCount s ins ≤ 1 ∧
    ∀ p ∈ spearFrames s ins, p.2 = true → p.1.hasHitAnimal = false := by
  induction ins generalizing s with
  | nil => simp [missCount, spearFrames]
  | cons i rest ih =>
    have hframes : spearFrames s (i :: rest) =
        (s, (spearTick s i.paused i.dt).missEmitted) ::
          spearFrames (applyHitFlag (spearTick s i.paused i.dt).state i.hitByAnimal) rest := rfl
    by_cases he : (spearTick s i.paused i.dt).missEmitted = true
    · have hflags := spearTick_emit_flags s i.paused i.dt he
      have hquiet := spearFrames_all_quiet
        (applyHitFlag (spearTick s i.paused i.dt).state i.hitByAnimal) rest
        (by rw [applyHitFlag_latch]; exact hflags.2.2)
      constructor
      · have hzero : missCount (applyHitFlag (spearTick s i.paused i.dt).state i.hitByAnimal) rest = 0 :=
          missCount_quiet _ rest (by rw [applyHitFlag_latch]; exact hflags.2.2)
        unfold missCount at hzero ⊢
        rw [hframes]
        simp [List.filter, he, hzero]
      · intro p hp
        rw [hframes] at hp
        rcases List.mem_cons.1 hp with hp | hp
        · intro _
          rw [hp]
          exact hflags.2.1
        · intro hpe
          exact absurd hpe (by simp [hquiet p hp])
    · have he' : (spearTick s i.paused i.dt).missEmitted = false := by
        simpa using he
      have hlatch : (applyHitFlag (spearTick s i.paused i.dt).state i.hitByAnimal).hasTriggeredMiss = false := by
        rw [applyHitFlag_latch, spearTick_no_emit_latch s i.paused i.dt he']
        exact h
      obtain ⟨ih1, ih2⟩ := ih (applyHitFlag (spearTick s i.paused i.dt).state i.hitByAnimal) hlatch
      constructor
      · unfold missCount at ih1 ⊢
        rw [hframes]
        simp [List.filter, he']
        exact ih1
      · intro p hp
        rw [hframes] at hp
        rcases List.mem_cons.1 hp with hp | hp
        · intro hpe
          exact absurd hpe (by simp [hp, he'])
        · exact ih2 p hp

/-- C2 witness: a fresh spear over a two-frame trace in which it first hits
an animal and flies on; the amended theorem applies and in particular no
miss at all is emitted on this trace. -/
theorem c2_miss_once_witness :
    c2FreshSpear.hasTriggeredMiss = false ∧
    (missCount c2FreshSpear [⟨false, true, 1/10⟩, ⟨false, false, 1/10⟩] ≤ 1 ∧
     ∀ p ∈ spearFrames c2FreshSpear [⟨false, true, 1/10⟩, ⟨false, false, 1/10⟩],
       p.2 = true → p.1.hasHitAnimal = false) :=
  ⟨rfl, c2_miss_once_amended c2FreshSpear [⟨false, true, 1/10⟩, ⟨false, false, 1/10⟩] rfl⟩

/-! ## Claim C5 -/

/-- C5 counterexample: `c5Spear` integrates to position `(25, 1/5, 0)`,
which is out of bounds (`x > 15`) and on neither the backstop nor the
ground, yet after the tick `isActive` is still `true` — the out-of-bounds
branch in the source never calls `setIsActive(false)`, refuting the claim
that the projectile is deactivated. -/
theorem c5_oob_counterexample :
    outOfBounds ⟨25, 1/5, 0⟩ ∧
    ¬ backstopHit ⟨25, 1/5, 0⟩ ∧
    ¬ groundHit ⟨25, 1/5, 0⟩ ∧
    (spearTick c5Spear false 1).state.pos = ⟨25, 1/5, 0⟩ ∧
    (spearTick c5Spear false 1).state.isActive = true ∧
    (spearTick c5Spear false 1).missEmitted = true := by
  norm_num [spearTick, backstopHit, groundHit, outOfBounds, GRAVITY, c5Spear]

/-- C5 (amended): when an active projectile's updated position exceeds the
lateral or depth limits without contacting backstop or ground, its position
is not clamped and the miss latch fires if unset, but `isActive` is left
unchanged (it remains `true`); the projectile is only culled from rendering
by a separate bounds check. -/
theorem c5_oob_amended (s : SpearState) (dt : ℚ) (hA : s.isActive = true) :
    ∀ np : Vec3,
      np = ⟨s.pos.x + s.vel.x * dt, s.pos.y + (s.vel.y - GRAVITY * dt) * dt,
            s.pos.z + s.vel.z * dt⟩ →
      ¬ backstopHit np → ¬ groundHit np → outOfBounds np →
      (spearTick s false dt).state.pos = np ∧
      (spearTick s false dt).state.isActive = true ∧
      (spearTick s false dt).missEmitted = (!s.hasTriggeredMiss && !s.hasHitAnimal) := by
  intro np hnp hb hg ho
  simp only [spearTick, hA]
  subst hnp
  split_ifs <;> simp_all [hA]

/-- C5 witness: the amended behaviour at the concrete out-of-bounds input. -/
theorem c5_oob_witness :
    c5Spear.isActive = true ∧
    ((spearTick c5Spear false 1).state.pos = ⟨25, 1/5, 0⟩ ∧
     (spearTick c5Spear false 1).state.isActive = true ∧
     (spearTick c5Spear false 1).missEmitted =
       (!c5Spear.hasTriggeredMiss && !c5Spear.hasHitAnimal)) :=
  ⟨rfl, c5_oob_amended c5Spear 1 rfl ⟨25, 1/5, 0⟩
    (by norm_num [c5Spear, GRAVITY])
    (by norm_num [backstopHit])
    (by norm_num [groundHit])
    (by norm_num [outOfBounds])⟩

/-! ## Claim C6 -/

/-- C6: each tick an active, non-paused projectile first has its y-velocity
decreased by `g·dt` and its position advanced by the updated velocity times
`dt`; then the terminal conditions are checked in fixed priority order:
backstop contact clamps `z` to the plane and deactivates; otherwise ground
contact clamps `y` to the floor and deactivates; otherwise the integrated
position stands — so at most one terminal branch applies per tick. -/
theorem c6_physics_order (s : SpearState) (dt : ℚ) (hA : s.isActive = true) :
    ∀ nv np : Vec3,
      nv = ⟨s.vel.x, s.vel.y - GRAVITY * dt, s.vel.z⟩ →
      np = ⟨s.pos.x + nv.x * dt, s.pos.y + nv.y * dt, s.pos.z + nv.z * dt⟩ →
      (spearTick s false dt).state.vel = nv ∧
      (backstopHit np →
        (spearTick s false dt).state.pos = ⟨np.x, np.y, -299/10⟩ ∧
        (spearTick s false dt).state.isActive = false) ∧
      (¬ backstopHit np → groundHit np →
        (spearTick s false dt).state.pos = ⟨np.x, -13/4, np.z⟩ ∧
        (spearTick s false dt).state.isActive = false) ∧
      (¬ backstopHit np → ¬ groundHit np →
        (spearTick s false dt).state.pos = np) := by
  intro nv np hnv hnp
  subst hnv
  subst hnp
  simp only [spearTick, hA]
  split_ifs <;> simp_all

/-- C6 witness: the physics step at a concrete in-flight spear. -/
theorem c6_physics_order_witness :
    c6Spear.isActive = true ∧
    (spearTick c6Spear false (1/10)).state.vel =
      ⟨c6Spear.vel.x, c6Spear.vel.y - GRAVITY * (1/10), c6Spear.vel.z⟩ :=
  ⟨rfl, (c6_physics_order c6Spear (1/10) rfl
    ⟨c6Spear.vel.x, c6Spear.vel.y - GRAVITY * (1/10), c6Spear.vel.z⟩ _ rfl rfl).1⟩

/-! ## Claim C1 -/

/-- C1: evaluating the Animal tick at the spec's overkill scenario — an
elephant at `health = 1` with two distinct spears inside the hit radius in
the same tick.  Both spears pass the `isActive` / stuck-set guards (the
first hit's `setIsAlive(false)` is a queued state write and does not stop
the loop), each computes the same stale `health - 1 = 0`, and each lethal
hit additionally invokes `onHit` both via the 500 ms timeout and
synchronously.  So four score-awarding `onHit(100, spearId, animalId)`
calls are produced where the claim requires exactly one scoring hit
event. -/
theorem c1_overkill_eval :
    (animalTick c1Animal [c1SpearA, c1SpearB] false (1/10)).immediateHits =
      [(100, 10, 1), (100, 11, 1)] ∧
    (animalTick c1Animal [c1SpearA, c1SpearB] false (1/10)).deferredHits =
      [(100, 10, 1), (100, 11, 1)] ∧
    (animalTick c1Animal [c1SpearA, c1SpearB] false (1/10)).animal.health = 0 ∧
    (animalTick c1Animal [c1SpearA, c1SpearB] false (1/10)).animal.isDying = true := by
  norm_num [animalTick, collideStep, distSq, c1Animal, c1SpearA, c1SpearB, ELEPHANT,
    List.foldl]

/-! ## Claim C7 -/

/-- C7: each tick an alive, non-paused animal moves only along the z axis by
`(baseSpeed + (maxHealth - health) * speedIncreasePerHit) * dt`; if the new
z reaches the player boundary (`z >= 8`), exactly one arrival event
carrying the archetype's damage and the animal's id is emitted, the animal
is removed immediately (`isAlive` cleared with `isDying` untouched, and
`handleAnimalReachPlayer` deletes its id from the registry) and no
collision check runs that tick; otherwise no arrival is emitted and the
position advances to the new z. -/
theorem c7_motor_arrival (a : AnimalState) (spears : List SpearState) (dt : ℚ)
    (hA : a.isAlive = true) :
    ∀ newZ : ℚ,
      newZ = a.pos.z +
        (a.type.baseSpeed + ((a.type.health : ℚ) - (a.health : ℚ)) * a.type.speedIncrease) * dt →
      (animalTick a spears false dt).animal.pos.x = a.pos.x ∧
      (animalTick a spears false dt).animal.pos.y = a.pos.y ∧
      (8 ≤ newZ →
        (animalTick a spears false dt).arrivals = [(a.type.damage, a.id)] ∧
        (animalTick a spears false dt).immediateHits = [] ∧
        (animalTick a spears false dt).deferredHits = [] ∧
        (animalTick a spears false dt).spears = spears ∧
        (animalTick a spears false dt).animal.isAlive = false ∧
        (animalTick a spears false dt).animal.isDying = a.isDying ∧
        (animalTick a spears false dt).animal.health = a.health ∧
        (∀ st : AppState, ∀ b ∈ (handleAnimalReachPlayer a.id st).animals, b.id ≠ a.id)) ∧
      (¬ 8 ≤ newZ →
        (animalTick a spears false dt).animal.pos.z = newZ ∧
        (animalTick a spears false dt).arrivals = []) := by
  intro newZ hz
  have hremove : ∀ st : AppState, ∀ b ∈ (handleAnimalReachPlayer a.id st).animals, b.id ≠ a.id := by
    intro st b hb
    simp only [handleAnimalReachPlayer, List.mem_filter] at hb
    simpa using hb.2
  subst hz
  simp only [animalTick, hA]
  split_ifs <;> simp_all
  exact hremove

/-- C7 witness: the antelope `c7Animal` crosses the boundary this tick and
produces exactly the arrival event `(damage, id) = (10, 9)`. -/
theorem c7_motor_arrival_witness :
    c7Animal.isAlive = true ∧
    (8 : ℚ) ≤ c7Animal.pos.z +
      (c7Animal.type.baseSpeed +
        ((c7Animal.type.health : ℚ) - (c7Animal.health : ℚ)) * c7Animal.type.speedIncrease) * (1/10) ∧
    (animalTick c7Animal [] false (1/10)).arrivals = [(c7Animal.type.damage, c7Animal.id)] ∧
    (animalTick c7Animal [] false (1/10)).animal.isAlive = false :=
  have h8 : (8 : ℚ) ≤ c7Animal.pos.z +
      (c7Animal.type.baseSpeed +
        ((c7Animal.type.health : ℚ) - (c7Animal.health : ℚ)) * c7Animal.type.speedIncrease) * (1/10) := by
    norm_num [c7Animal, ANTELOPE]
  have hmain := (c7_motor_arrival c7Animal [] (1/10) rfl _ rfl).2.2.1 h8
  ⟨rfl, h8, hmain.1, hmain.2.2.2.2.1⟩

/-! ## Claim C3 -/

set_option maxHeartbeats 2000000 in
/-- C3: a projectile is created by a pose-effect run exactly when the run is
live (`ready`, unpaused), the hand is raised, the render-time fire state is
`Gripped`, a render-time aim point exists, and
`now - lastFireTime >= FIRE_COOLDOWN`; a firing run records
`lastFireTime = now` and appends exactly one spear; and any run inside the
cooldown window creates no projectile and leaves the projectile registry,
the id counter and the fire timestamp untouched — so two fire attempts less
than `FIRE_COOLDOWN` apart produce exactly one projectile and the ignored
attempt has no queued effect. -/
theorem c3_cooldown_gate (st : AppState) (ready : Bool) (aim? : Option Vec3)
    (hr : Bool) (now : ℤ) :
    ((poseUpdate st ready aim? hr now).2.isSome ↔
      (ready = true ∧ st.isPaused = false ∧ hr = true ∧
       st.spearState = SpearPhase.Gripped ∧ st.headPosition.isSome ∧
       FIRE_COOLDOWN ≤ now - st.lastFireTime)) ∧
    ((poseUpdate st ready aim? hr now).2.isSome →
      (poseUpdate st ready aim? hr now).1.lastFireTime = now ∧
      (poseUpdate st ready aim? hr now).1.thrownSpears.length = st.thrownSpears.length + 1 ∧
      (poseUpdate st ready aim? hr now).1.spearIdCounter = st.spearIdCounter + 1) ∧
    (∀ st2 : AppState, ∀ r2 : Bool, ∀ a2 : Option Vec3, ∀ h2 : Bool, ∀ t2 : ℤ,
      t2 - st2.lastFireTime < FIRE_COOLDOWN →
      (poseUpdate st2 r2 a2 h2 t2).2 = none ∧
      (poseUpdate st2 r2 a2 h2 t2).1.thrownSpears = st2.thrownSpears ∧
      (poseUpdate st2 r2 a2 h2 t2).1.spearIdCounter = st2.spearIdCounter ∧
      (poseUpdate st2 r2 a2 h2 t2).1.lastFireTime = st2.lastFireTime) := by
  refine ⟨?_, ?_, ?_⟩
  · simp only [poseUpdate]
    cases ready <;> cases hp : st.isPaused <;>
      cases hh : st.headPosition <;> cases aim? <;>
      split_ifs <;> simp_all
  · simp only [poseUpdate]
    cases ready <;> cases hp : st.isPaused <;>
      cases hh : st.headPosition <;> cases aim? <;>
      split_ifs <;> simp_all
  · intro st2 r2 a2 h2 t2 hlt
    have hnc : ¬ FIRE_COOLDOWN ≤ t2 - st2.lastFireTime := by omega
    simp only [poseUpdate]
    cases r2 <;> cases hp : st2.isPaused <;>
      cases hh : st2.headPosition <;> cases a2 <;>
      split_ifs <;> simp_all

/-- C3 witness: from the ready-to-fire state `c3St` an attempt at
`now = 1500` fires, while an attempt at `now = 500` is inside the cooldown
window and has no effect. -/
theorem c3_cooldown_gate_witness :
    ((poseUpdate c3St true (some ⟨0, 0, 5⟩) true 1500).2.isSome) ∧
    ((500 : ℤ) - c3St.lastFireTime < FIRE_COOLDOWN ∧
     (poseUpdate c3St true (some ⟨0, 0, 5⟩) true 500).2 = none ∧
     (poseUpdate c3St true (some ⟨0, 0, 5⟩) true 500).1.thrownSpears = c3St.thrownSpears) :=
  have hwin : (500 : ℤ) - c3St.lastFireTime < FIRE_COOLDOWN := by
    norm_num [c3St, initialAppState, FIRE_COOLDOWN]
  have hblock := (c3_cooldown_gate c3St true (some ⟨0, 0, 5⟩) true 1500).2.2
    c3St true (some ⟨0, 0, 5⟩) true 500 hwin
  have hfire := (c3_cooldown_gate c3St true (some ⟨0, 0, 5⟩) true 1500).1.2
    ⟨rfl, rfl, rfl, rfl, rfl, by norm_num [c3St, initialAppState, FIRE_COOLDOWN]⟩
  ⟨hfire, hwin, hblock.1, hblock.2.1⟩

/-! ## Claim C4 -/

theorem runPendingSpawn_nil (r rx : ℚ) (st : AppState)
    (h : st.pendingSpawns = []) :
    runPendingSpawn r rx st = st := by
  unfold runPendingSpawn
  rw [h]

theorem runPendingSpawn_cons (r rx : ℚ) (st : AppState) (captured : Bool)
    (rest : List Bool) (h : st.pendingSpawns = captured :: rest) :
    runPendingSpawn r rx st =
      spawnFresh captured r rx { st with pendingSpawns := rest } := by
  unfold runPendingSpawn
  rw [h]
  rfl

/-- C4: every removal path issues exactly one respawn request, and the
deferred callback spawns exactly one replacement, including when the
session is paused at the moment it fires.  A kill or arrival tick only runs
with the render-time `isPaused = false` (the Animal's `useFrame` guard), so
the `spawnNewAnimal` closure those paths schedule has captured
`isPaused = false`; the timer body reads that captured value, so the
`isPaused` guard at src/App.jsx:959 cannot fire inside a deferred call and
the outstanding respawn is not lost.  The falsy dead id `0` skips the
removal branch but still spawns exactly one replacement, immediately. -/
theorem c4_respawn_conserved (st : AppState) (d aid : ℕ) (r rx : ℚ)
    (hd : d ≠ 0) (harr : st.isPaused = false) :
    ((spawnNewAnimal (some d) false r rx st).animals =
        st.animals.filter (fun a => a.id != d) ∧
     (spawnNewAnimal (some d) false r rx st).pendingSpawns =
        st.pendingSpawns ++ [false] ∧
     (spawnNewAnimal (some d) false r rx st).animalIdCounter = st.animalIdCounter) ∧
    ((handleAnimalReachPlayer aid st).animals =
        st.animals.filter (fun a => a.id != aid) ∧
     (handleAnimalReachPlayer aid st).pendingSpawns = st.pendingSpawns ++ [false]) ∧
    ((spawnNewAnimal (some 0) false r rx st).animals.length = st.animals.length + 1 ∧
     (spawnNewAnimal (some 0) false r rx st).pendingSpawns = st.pendingSpawns) ∧
    (∀ st2 : AppState, ∀ rest : List Bool, st2.pendingSpawns = false :: rest →
      (runPendingSpawn r rx st2).animals.length = st2.animals.length + 1 ∧
      (runPendingSpawn r rx st2).pendingSpawns = rest ∧
      (runPendingSpawn r rx st2).animalIdCounter = st2.animalIdCounter + 1) := by
  refine ⟨?_, ?_, ?_, ?_⟩
  · have ht : idTruthy (some d) = true := by simp [idTruthy, hd]
    simp [spawnNewAnimal, ht]
  · simp [handleAnimalReachPlayer, harr]
  · simp [spawnNewAnimal, idTruthy, spawnFresh]
  · intro st2 rest h2
    rw [runPendingSpawn_cons r rx st2 false rest h2]
    simp [spawnFresh]

/-- C4 witness: killing animal 5 on the unpaused session `c4Init` schedules
exactly one respawn request; the player then pauses, and when the deferred
callback fires while paused it still spawns exactly one replacement. -/
theorem c4_respawn_conserved_witness :
    (5 : ℕ) ≠ 0 ∧ c4Init.isPaused = false ∧
    (spawnNewAnimal (some 5) false 0 0 c4Init).pendingSpawns =
      c4Init.pendingSpawns ++ [false] ∧
    (handleTogglePause (spawnNewAnimal (some 5) false 0 0 c4Init)).isPaused = true ∧
    (runPendingSpawn 0 0
        (handleTogglePause (spawnNewAnimal (some 5) false 0 0 c4Init))).animals.length =
      (handleTogglePause (spawnNewAnimal (some 5) false 0 0 c4Init)).animals.length + 1 :=
  have h := c4_respawn_conserved c4Init 5 0 0 0 (by norm_num) rfl
  ⟨by norm_num, rfl, h.1.2.1, rfl,
   (h.2.2.2 (handleTogglePause (spawnNewAnimal (some 5) false 0 0 c4Init)) [] rfl).1⟩

/-! ## Claim C9 -/

/-- C9 counterexample: restarting the mid-game session `c9State` (whose
`lastFireTime` is 5000) leaves `lastFireTime` at 5000, while its initial
value in `useState(0)` is 0 — `handleRestart` never resets the
fire-cooldown state, refuting the claim. -/
theorem c9_restart_counterexample :
    (handleRestart c9State).lastFireTime = 5000 ∧
    initialAppState.lastFireTime = 0 ∧
    (handleRestart c9State).lastFireTime ≠ initialAppState.lastFireTime := by
  norm_num [handleRestart, c9State, initialAppState]

/-- C9 (amended): restart atomically resets the score, empties both entity
registries, returns the fire state to `Idle`, resets both id counters,
clears both messages and the pause flag — but leaves the fire-cooldown
state `lastFireTime` unchanged. -/
theorem c9_restart_amended (st : AppState) :
    (handleRestart st).score = 0 ∧
    (handleRestart st).animals = [] ∧
    (handleRestart st).thrownSpears = [] ∧
    (handleRestart st).spearState = SpearPhase.Idle ∧
    (handleRestart st).hitMessage = "" ∧
    (handleRestart st).flashMessage = "" ∧
    (handleRestart st).isPaused = false ∧
    (handleRestart st).spearIdCounter = 0 ∧
    (handleRestart st).animalIdCounter = 0 ∧
    (handleRestart st).lastFireTime = st.lastFireTime :=
  ⟨rfl, rfl, rfl, rfl, rfl, rfl, rfl, rfl, rfl, rfl⟩

/-! ## Claim C8 -/

theorem wsum_shift (ts : List AnimalType) (a : ℚ) :
    ts.foldl (fun acc t => acc + t.spawnWeight) a = a + wsum ts := by
  induction ts generalizing a with
  | nil => simp [wsum]
  | cons t rest ih =>
    simp only [wsum, List.foldl_cons]
    rw [ih (a + t.spawnWeight), ih (0 + t.spawnWeight)]
    ring

theorem wsum_cons (t : AnimalType) (ts : List AnimalType) :
    wsum (t :: ts) = t.spawnWeight + wsum ts := by
  simp only [wsum, List.foldl_cons]
  rw [wsum_shift]
  simp [wsum]

/-- C8: for any draw `0 <= r < Σ spawnWeights`, the selection walk subtracts
weights in list order and stops at the first archetype where the running
value reaches `<= 0`; it always terminates with some archetype selected
(the result is `ts[i]?` for an index `i` within the list, the running value
after position `i` is `<= 0`, and it was still positive at every earlier
position). -/
theorem c8_weighted_walk (ts : List AnimalType) (r : ℚ) (h0 : 0 ≤ r)
    (h1 : r < wsum ts) :
    ∃ i : ℕ, i < ts.length ∧ selectLoop r ts = ts[i]? ∧
      r - wsum (ts.take (i+1)) ≤ 0 ∧
      ∀ j : ℕ, j < i → 0 < r - wsum (ts.take (j+1)) := by
  induction ts generalizing r with
  | nil =>
    exfalso
    simp [wsum] at h1
    linarith
  | cons t rest ih =>
    by_cases hb : r - t.spawnWeight ≤ 0
    · refine ⟨0, by simp, ?_, ?_, by omega⟩
      · simp [selectLoop, hb]
      · simpa [wsum_cons, wsum] using hb
    · push_neg at hb
      have h1' : r - t.spawnWeight < wsum rest := by
        rw [wsum_cons] at h1
        linarith
      obtain ⟨i, hi, hsel, hle, hfirst⟩ := ih (r - t.spawnWeight) (le_of_lt (by linarith)) h1'
      refine ⟨i + 1, by simpa using Nat.succ_lt_succ hi, ?_, ?_, ?_⟩
      · rw [show selectLoop r (t :: rest) = selectLoop (r - t.spawnWeight) rest from by
          simp [selectLoop, not_le.2 (by linarith : (0:ℚ) < r - t.spawnWeight)]]
        rw [hsel, List.getElem?_cons_succ]
      · rw [List.take_succ_cons, wsum_cons]
        linarith
      · intro j hj
        cases j with
        | zero => simpa [wsum_cons, wsum] using hb
        | succ j' =>
          have hj' := hfirst j' (by omega)
          rw [List.take_succ_cons, wsum_cons]
          linarith

/-- C8 witness: the draw `r = 5/8` against the game's archetype list lands
on the second archetype (the running value first reaches `<= 0` there). -/
theorem c8_weighted_walk_witness :
    (0 : ℚ) ≤ 5/8 ∧ (5/8 : ℚ) < wsum ANIMAL_TYPES ∧
    (∃ i : ℕ, i < ANIMAL_TYPES.length ∧
      selectLoop (5/8) ANIMAL_TYPES = ANIMAL_TYPES[i]? ∧
      (5/8 : ℚ) - wsum (ANIMAL_TYPES.take (i+1)) ≤ 0 ∧
      ∀ j : ℕ, j < i → 0 < (5/8 : ℚ) - wsum (ANIMAL_TYPES.take (j+1))) :=
  ⟨by norm_num,
   by norm_num [wsum, ANIMAL_TYPES, ELEPHANT, CHEETAH, ANTELOPE, List.foldl],
   c8_weighted_walk ANIMAL_TYPES (5/8) (by norm_num)
     (by norm_num [wsum, ANIMAL_TYPES, ELEPHANT, CHEETAH, ANTELOPE, List.foldl])⟩

/-! ## Claim C10 -/

theorem pairwise_ne_filter {α : Type} (f : α → ℕ) (l : List α) (p : α → Bool)
    (hp : l.Pairwise (fun a b => f a ≠ f b)) :
    (l.filter p).Pairwise (fun a b => f a ≠ f b) :=
  hp.sublist (List.filter_sublist l)

theorem bound_ne_filter {α : Type} (f : α → ℕ) (l : List α) (p : α → Bool) (c : ℕ)
    (hb : ∀ a ∈ l, f a < c) :
    ∀ a ∈ l.filter p, f a < c :=
  fun a ha => hb a (List.mem_of_mem_filter ha)

theorem pairwise_ne_append_fresh {α : Type} (f : α → ℕ) (l : List α) (c : ℕ) (x : α)
    (hb : ∀ a ∈ l, f a < c) (hp : l.Pairwise (fun a b => f a ≠ f b)) (hx : f x = c) :
    ((l ++ [x]).Pairwise (fun a b => f a ≠ f b)) ∧ (∀ a ∈ l ++ [x], f a < c + 1) := by
  constructor
  · rw [List.pairwise_append]
    refine ⟨hp, List.pairwise_singleton _ _, ?_⟩
    intro a ha b hbx
    simp only [List.mem_singleton] at hbx
    subst hbx
    rw [hx]
    exact Nat.ne_of_lt (hb a ha)
  · intro a ha
    rcases List.mem_append.1 ha with h | h
    · exact Nat.lt_succ_of_lt (hb a h)
    · simp only [List.mem_singleton] at h
      subst h
      rw [hx]
      exact Nat.lt_succ_self c

set_option maxHeartbeats 1000000 in
theorem poseUpdate_registry_shape (st : AppState) (ready : Bool) (aim? : Option Vec3)
    (hr : Bool) (now : ℤ) :
    (poseUpdate st ready aim? hr now).1.animals = st.animals ∧
    (poseUpdate st ready aim? hr now).1.animalIdCounter = st.animalIdCounter ∧
    (((poseUpdate st ready aim? hr now).1.thrownSpears = st.thrownSpears ∧
      (poseUpdate st ready aim? hr now).1.spearIdCounter = st.spearIdCounter) ∨
     (∃ hp : Vec3,
      (poseUpdate st ready aim? hr now).1.thrownSpears =
        st.thrownSpears ++ [⟨st.spearIdCounter, hp, fireVelocity⟩] ∧
      (poseUpdate st ready aim? hr now).1.spearIdCounter = st.spearIdCounter + 1)) := by
  simp only [poseUpdate]
  cases ready <;> cases hp : st.isPaused <;>
    cases hh : st.headPosition <;> cases aim? <;>
    split_ifs <;> simp_all

theorem spawnFresh_registry_shape (captured : Bool) (r rx : ℚ) (st : AppState) :
    (spawnFresh captured r rx st).thrownSpears = st.thrownSpears ∧
    (spawnFresh captured r rx st).spearIdCounter = st.spearIdCounter ∧
    (((spawnFresh captured r rx st).animals = st.animals ∧
      (spawnFresh captured r rx st).animalIdCounter = st.animalIdCounter) ∨
     ((spawnFresh captured r rx st).animals = st.animals ++
        [⟨st.animalIdCounter, selectAnimalType (r * wsum ANIMAL_TYPES), ⟨rx - 1/2, -4, -25⟩⟩] ∧
      (spawnFresh captured r rx st).animalIdCounter = st.animalIdCounter + 1)) := by
  unfold spawnFresh
  split_ifs <;> simp

/-- C10: every session operation preserves the id discipline — each
registered animal's and projectile's id stays below the corresponding
counter and ids remain pairwise distinct in both registries, because fresh
entities always take the current counter value and bump it. -/
theorem c10_id_distinct {st st' : AppState} (h : AppStep st st') (hok : idsOk st) :
    idsOk st' := by
  obtain ⟨ha, hpa, hs, hps⟩ := hok
  unfold idsOk
  cases h with
  | pose ready aim? hr now st =>
    obtain ⟨e1, e2, e3⟩ := poseUpdate_registry_shape st ready aim? hr now
    rw [e1, e2]
    rcases e3 with ⟨e3, e4⟩ | ⟨hp, e3, e4⟩
    · rw [e3, e4]
      exact ⟨ha, hpa, hs, hps⟩
    · rw [e3, e4]
      obtain ⟨hpw, hbw⟩ := pairwise_ne_append_fresh (fun p => p.id) st.thrownSpears
        st.spearIdCounter ⟨st.spearIdCounter, hp, fireVelocity⟩ hs hps rfl
      exact ⟨ha, hpa, hbw, hpw⟩
  | spawn deadId captured r rx st =>
    unfold spawnNewAnimal
    split_ifs with ht
    · exact ⟨bound_ne_filter (fun a => a.id) st.animals _ _ ha,
             pairwise_ne_filter (fun a => a.id) st.animals _ hpa, hs, hps⟩
    · obtain ⟨e1, e2, e3⟩ := spawnFresh_registry_shape captured r rx st
      rw [e1, e2]
      rcases e3 with ⟨e3, e4⟩ | ⟨e3, e4⟩
      · rw [e3, e4]
        exact ⟨ha, hpa, hs, hps⟩
      · rw [e3, e4]
        obtain ⟨hpw, hbw⟩ := pairwise_ne_append_fresh (fun a => a.id) st.animals
          st.animalIdCounter
          ⟨st.animalIdCounter, selectAnimalType (r * wsum ANIMAL_TYPES), ⟨rx - 1/2, -4, -25⟩⟩
          ha hpa rfl
        exact ⟨hbw, hpw, hs, hps⟩
  | pending r rx st =>
    cases hz : st.pendingSpawns with
    | nil =>
      rw [runPendingSpawn_nil r rx st hz]
      exact ⟨ha, hpa, hs, hps⟩
    | cons captured rest =>
      rw [runPendingSpawn_cons r rx st captured rest hz]
      obtain ⟨e1, e2, e3⟩ := spawnFresh_registry_shape captured r rx
        { st with pendingSpawns := rest }
      rw [e1, e2]
      rcases e3 with ⟨e3, e4⟩ | ⟨e3, e4⟩
      · rw [e3, e4]
        exact ⟨ha, hpa, hs, hps⟩
      · rw [e3, e4]
        obtain ⟨hpw, hbw⟩ := pairwise_ne_append_fresh (fun a => a.id) st.animals
          st.animalIdCounter
          ⟨st.animalIdCounter, selectAnimalType (r * wsum ANIMAL_TYPES), ⟨rx - 1/2, -4, -25⟩⟩
          ha hpa rfl
        exact ⟨hbw, hpw, hs, hps⟩
  | reach animalId st =>
    exact ⟨bound_ne_filter (fun a : AnimalEntity => a.id) st.animals
             (fun a => a.id != animalId) st.animalIdCounter ha,
           pairwise_ne_filter (fun a : AnimalEntity => a.id) st.animals
             (fun a => a.id != animalId) hpa,
           hs, hps⟩
  | hit sc sp an st =>
    unfold handleAnimalHit
    split_ifs
    · exact ⟨ha, hpa, bound_ne_filter (fun p => p.id) st.thrownSpears _ _ hs,
             pairwise_ne_filter (fun p => p.id) st.thrownSpears _ hps⟩
    · exact ⟨ha, hpa, hs, hps⟩
  | msg m st =>
    exact ⟨ha, hpa, hs, hps⟩
  | miss sp m st =>
    exact ⟨ha, hpa,
           bound_ne_filter (fun p : SpearEntity => p.id) st.thrownSpears
             (fun p => p.id != sp) st.spearIdCounter hs,
           pairwise_ne_filter (fun p : SpearEntity => p.id) st.thrownSpears
             (fun p => p.id != sp) hps⟩
  | pauseToggle st =>
    exact ⟨ha, hpa, hs, hps⟩
  | restart st =>
    exact ⟨by simp [handleRestart], List.Pairwise.nil, by simp [handleRestart],
           List.Pairwise.nil⟩
  | throwReset st =>
    exact ⟨ha, hpa, hs, hps⟩

/-- C10 witness: the invariant holds on `c10St` and is preserved by a
concrete spawn step. -/
theorem c10_id_distinct_witness :
    idsOk c10St ∧ idsOk (spawnNewAnimal none false 0 0 c10St) :=
  have h0 : idsOk c10St := by
    refine ⟨?_, ?_, ?_, ?_⟩ <;> simp [c10St, initialAppState]
  ⟨h0, c10_id_distinct (AppStep.spawn none false 0 0 c10St) h0⟩

end Hunt
